import Mathlib

/-!
Shallow embedding of the chat subsystem of this repository.

Sources embedded:
* `src/server/services/chat.service.ts` — the service layer (`saveChat`,
  `createMessage`, `addMessageToChat`, `getChat`, `getChatsByParticipants`,
  `addParticipantToChat`).
* `src/unnamed/part_000` — the chat controller (`isCreateChatRequestValid`,
  `isAddMessageRequestValid`, `isAddParticipantRequestValid`,
  `createChatRoute`, `addMessageToChatRoute`, `getChatRoute`,
  `getChatsByUserRoute`, `addParticipantToChatRoute`, and the
  `joinChat` / `leaveChat` connection handlers).

Modelling conventions:
* The document database (MongoDB via mongoose) is modelled as explicit state:
  three in-memory collections plus a fresh-id counter and a clock.
  `findByIdAndUpdate` updates the first document whose id matches;
  `$push` appends; `$addToSet` appends only when absent; `$in` / `$all`
  are membership filters, and `$all` with an empty list matches no
  documents (documented MongoDB behaviour).
* Every awaited database primitive may throw; a `Faults` record says which
  primitives throw during a run.  The services' try/catch blocks are the
  `Except` matches below; a faulted primitive makes the surrounding catch
  produce the same error object the source produces.
* JavaScript dynamic typing is quotiented: fields that the validators check
  with `typeof x === `string`` are embedded with type `String`, so those
  checks hold by typing and are dropped.  A `participants` field that is
  not an array is `Option.none`.  Date values are quotiented into `JDate`:
  a string that parses, a string that does not parse, or a non-string
  value that `new Date` maps to a valid or invalid date.
* Timestamps are `Nat` (milliseconds); `DBState.now` is the clock read by
  `new Date()`.
-/

deriving instance DecidableEq for Except

namespace ChatCore

/-- User document in the UserModel collection: internal id and username. -/
structure UserRec where
  uid : String
  username : String
deriving Repr, DecidableEq

/-- Message document in the MessageModel collection, as the service stores it:
`createMessage` and `saveChat` persist `msgFrom` exactly as supplied in the
payload (a username), after checking that a user with that username exists. -/
structure MessageRec where
  mid : String
  msg : String
  msgFrom : String
  msgDateTime : Nat
  mtype : String
deriving Repr, DecidableEq

/-- Chat document in the ChatModel collection: participant id references and
message id references. -/
structure ChatRec where
  cid : String
  participants : List String
  messages : List String
deriving Repr, DecidableEq

/-- The document database state plus a fresh-id counter and the clock. -/
structure DBState where
  users : List UserRec
  messages : List MessageRec
  chats : List ChatRec
  nextId : Nat
  now : Nat
deriving Repr, DecidableEq

/-- Which awaited database primitives throw during a run.  `popThrow` makes
`populateDocument` (and the inline populate of `createChatRoute`) reject. -/
structure Faults where
  userFind : Bool
  msgSave : Bool
  chatFind : Bool
  chatWrite : Bool
  popThrow : Bool
deriving Repr, DecidableEq

/-- A fault-free run: no database primitive throws. -/
def noFaults : Faults := ⟨false, false, false, false, false⟩

/-- Fresh object id assigned by the store on insert. -/
def freshId (n : Nat) : String := "oid" ++ toString n

/-- Hexadecimal digit test, for object-id validation. -/
def isHexDigit (c : Char) : Bool :=
  c.isDigit || (decide (c.toLower.toNat ≤ 102) && decide (97 ≤ c.toLower.toNat))

/-- Embedding of mongoose `isValidObjectId` on strings: a 24-character hex
string or any 12-character string. -/
def isValidObjectId (s : String) : Bool :=
  (s.length == 24 && s.toList.all isHexDigit) || s.length == 12

/-- Quotient of a JavaScript date-like value: a string that `Date.parse`
accepts (with its time), a string it rejects, or a non-string value that
`new Date` maps to a valid time or to an invalid date. -/
inductive JDate where
  | strParses (t : Nat)
  | strNoParse
  | nonStr (t : Option Nat)
deriving Repr, DecidableEq

/-- Seed message inside a create-chat request body. -/
structure SeedMsg where
  msg : String
  msgFrom : String
  msgDateTime : Option JDate
deriving Repr, DecidableEq

/-- Create-chat request body.  `participants = none` models a value that is
not an array; `messages = none` models an absent/falsy field, and
`messages = some none` a present field that is not an array. -/
structure CreateChatBody where
  participants : Option (List String)
  messages : Option (Option (List SeedMsg))
deriving Repr, DecidableEq

/-- Add-message request: the `chatId` route parameter plus the body fields. -/
structure AddMessageRequest where
  chatId : String
  msg : String
  msgFrom : String
  msgDateTime : Option JDate
deriving Repr, DecidableEq

/-- Add-participant request: the `chatId` route parameter plus the body. -/
structure AddParticipantRequest where
  chatId : String
  participant : String
deriving Repr, DecidableEq

/-- Date check made by `isCreateChatRequestValid` on a seed message: absent,
or a string that parses. -/
def seedDateValid : Option JDate → Bool
  | none => true
  | some (JDate.strParses _) => true
  | some JDate.strNoParse => false
  | some (JDate.nonStr _) => false

/-- Embedding of `isCreateChatRequestValid` (src/unnamed/part_000 lines
26-44): participants must be an array of at least two strings, and every
seed message, when a messages array is present, must have string `msg` and
`msgFrom` and an absent-or-parsing `msgDateTime`.  The `typeof` string
checks hold by typing in this embedding. -/
def isCreateChatRequestValid (b : CreateChatBody) : Bool :=
  match b.participants with
  | none => false
  | some ps =>
    if ps.length < 2 then false
    else
      match b.messages with
      | none => true
      | some none => false
      | some (some ms) => ms.all (fun m => seedDateValid m.msgDateTime)

/-- Date check made by `isAddMessageRequestValid`: absent, or a value that
`new Date` maps to a valid time. -/
def amDateValid : Option JDate → Bool
  | none => true
  | some (JDate.strParses _) => true
  | some JDate.strNoParse => false
  | some (JDate.nonStr t) => t.isSome

/-- JavaScript `String.prototype.trim`: drop leading and trailing
whitespace. -/
def jsTrim (s : String) : List Char :=
  ((s.toList.dropWhile Char.isWhitespace).reverse.dropWhile Char.isWhitespace).reverse

/-- Embedding of `isAddMessageRequestValid` (src/unnamed/part_000 lines
46-57): valid object id in the route parameter, non-empty trimmed text,
string sender, valid-or-absent date. -/
def isAddMessageRequestValid (r : AddMessageRequest) : Bool :=
  isValidObjectId r.chatId && decide ((jsTrim r.msg).length > 0) && amDateValid r.msgDateTime

/-- Embedding of `isAddParticipantRequestValid` (src/unnamed/part_000 lines
59-69): both the chat id and the participant must be valid object ids. -/
def isAddParticipantRequestValid (r : AddParticipantRequest) : Bool :=
  isValidObjectId r.chatId && isValidObjectId r.participant

/-- Conversion the routes perform on an optional incoming date:
`d ? new Date(d) : new Date()`, restricted to values that passed
validation; an absent or invalid value becomes the current time. -/
def resolveDate (d : Option JDate) (now : Nat) : Nat :=
  match d with
  | some (JDate.strParses t) => t
  | some (JDate.nonStr (some t)) => t
  | _ => now

/-- `UserModel.find` with a `username $in names` filter; throws when the
user-find fault is set. -/
def dbUserFindIn (f : Faults) (s : DBState) (names : List String) :
    Except Unit (List UserRec) :=
  if f.userFind then .error () else .ok (s.users.filter (fun u => names.contains u.username))

/-- `UserModel.findOne` by username; throws when the user-find fault is set. -/
def dbUserFindOne (f : Faults) (s : DBState) (name : String) :
    Except Unit (Option UserRec) :=
  if f.userFind then .error ()
  else .ok (s.users.find? (fun u => u.username == name))

/-- `ChatModel.find` with a `participants $all ids` filter.  MongoDB defines
`$all` with an empty list to match no documents. -/
def dbChatFindAll (f : Faults) (s : DBState) (ids : List String) :
    Except Unit (List ChatRec) :=
  if f.chatFind then .error ()
  else if ids.isEmpty then .ok []
  else .ok (s.chats.filter (fun c => ids.all (fun i => c.participants.contains i)))

/-- Message record built by `saveChat` for one seed message: the payload is
spread into the model with `type: direct`, so `msgFrom` stays the username
supplied in the request. -/
def mkSeedRec (n : Nat) (now : Nat) (m : SeedMsg) : MessageRec :=
  { mid := freshId n, msg := m.msg, msgFrom := m.msgFrom,
    msgDateTime := resolveDate m.msgDateTime now, mtype := "direct" }

/-- The message records persisted by `saveChat` for a seed list, with the
fresh ids they are assigned. -/
def storeSeeds : List SeedMsg → Nat → Nat → List MessageRec
  | [], _, _ => []
  | m :: rest, n, now => mkSeedRec n now m :: storeSeeds rest (n + 1) now

/-- Payload `saveChat` receives: the validated request body. -/
structure CreateChatPayload where
  participants : List String
  messages : Option (List SeedMsg)
deriving Repr, DecidableEq

/-- View of a validated `CreateChatBody` as the payload `saveChat` reads. -/
def decodeCreateChatBody (b : CreateChatBody) : CreateChatPayload :=
  { participants := b.participants.getD []
    messages :=
      match b.messages with
      | some (some ms) => some ms
      | _ => none }

/-- Intermediate store state inside `saveChat`, after the seed messages were
persisted by `Promise.all` of the individual saves and before the
participants are resolved. -/
def saveChatMid (p : CreateChatPayload) (s : DBState) : DBState :=
  { s with messages := s.messages ++ storeSeeds (p.messages.getD []) s.nextId s.now,
           nextId := s.nextId + (p.messages.getD []).length }

/-- The chat document `saveChat` hands to `ChatModel.create`: resolved
participant ids and the ids of the persisted seed messages. -/
def saveChatNew (p : CreateChatPayload) (s : DBState) (users : List UserRec) : ChatRec :=
  { cid := freshId (saveChatMid p s).nextId,
    participants := users.map (fun u => u.uid),
    messages := (storeSeeds (p.messages.getD []) s.nextId s.now).map (fun m => m.mid) }

/-- Embedding of `saveChat` (src/server/services/chat.service.ts lines
10-43): persist every seed message first, then resolve the participant
usernames; a count mismatch yields the `Some users not found` error object
with the seed messages already persisted (no rollback); otherwise create the
chat with the resolved participant ids and the seed message ids. -/
def saveChat (p : CreateChatPayload) (f : Faults) (s : DBState) :
    Except String ChatRec × DBState :=
  if f.msgSave && !(p.messages.getD []).isEmpty then (.error "Failed to save chat", s)
  else
    match dbUserFindIn f (saveChatMid p s) p.participants with
    | .error _ => (.error "Failed to save chat", saveChatMid p s)
    | .ok users =>
      if users.length != p.participants.length then
        (.error "Some users not found", saveChatMid p s)
      else if f.chatWrite then (.error "Failed to save chat", saveChatMid p s)
      else
        (.ok (saveChatNew p s users),
         { saveChatMid p s with
             chats := (saveChatMid p s).chats ++ [saveChatNew p s users],
             nextId := (saveChatMid p s).nextId + 1 })

/-- Payload the controller hands to `createMessage`: text, sender as given in
the request body (a username), resolved date, and the `direct` tag. -/
structure MessagePayload where
  msg : String
  msgFrom : String
  msgDateTime : Nat
  mtype : String
deriving Repr, DecidableEq

/-- Embedding of `createMessage` (src/server/services/chat.service.ts lines
48-61): look the sender username up; if absent return the `User not found`
error object; otherwise persist the message exactly as supplied — in
particular `msgFrom` is stored as the username, not replaced by the
resolved user id. -/
def createMessage (m : MessagePayload) (f : Faults) (s : DBState) :
    Except String MessageRec × DBState :=
  match dbUserFindOne f s m.msgFrom with
  | .error _ => (.error "Failed to create message", s)
  | .ok none => (.error "User not found", s)
  | .ok (some _) =>
    if f.msgSave then (.error "Failed to create message", s)
    else
      let md : MessageRec := { mid := freshId s.nextId, msg := m.msg, msgFrom := m.msgFrom,
                               msgDateTime := m.msgDateTime, mtype := m.mtype }
      (.ok md, { s with messages := s.messages ++ [md], nextId := s.nextId + 1 })

/-- `findByIdAndUpdate` kernel: update the first chat whose id matches,
returning the updated document and the updated collection. -/
def updateFirst (g : ChatRec → ChatRec) (cid : String) :
    List ChatRec → Option (ChatRec × List ChatRec)
  | [] => none
  | c :: rest =>
    if c.cid == cid then some (g c, g c :: rest)
    else
      match updateFirst g cid rest with
      | none => none
      | some (u, l) => some (u, c :: l)

/-- The `$push messages` update applied by `addMessageToChat`. -/
def pushMessage (messageId : String) (c : ChatRec) : ChatRec :=
  { c with messages := c.messages ++ [messageId] }

/-- Embedding of `addMessageToChat` (src/server/services/chat.service.ts
lines 66-81): `findByIdAndUpdate` with `$push`; a missing chat yields the
`Chat not found` error object. -/
def addMessageToChat (chatId messageId : String) (f : Faults) (s : DBState) :
    Except String ChatRec × DBState :=
  if f.chatWrite then (.error "Failed to add message to chat", s)
  else
    match updateFirst (pushMessage messageId) chatId s.chats with
    | none => (.error "Chat not found", s)
    | some (c, chats) => (.ok c, { s with chats := chats })

/-- The `$addToSet participants` update applied by `addParticipantToChat`:
append only when the id is not already a member. -/
def addToSetParticipant (userId : String) (c : ChatRec) : ChatRec :=
  if c.participants.contains userId then c
  else { c with participants := c.participants ++ [userId] }

/-- Embedding of `addParticipantToChat` (src/server/services/chat.service.ts
lines 113-129): `findByIdAndUpdate` with `$addToSet`; a missing chat yields
the `Chat not found` error object. -/
def addParticipantToChat (chatId userId : String) (f : Faults) (s : DBState) :
    Except String ChatRec × DBState :=
  if f.chatWrite then (.error "Failed to add participant to chat", s)
  else
    match updateFirst (addToSetParticipant userId) chatId s.chats with
    | none => (.error "Chat not found", s)
    | some (c, chats) => (.ok c, { s with chats := chats })

/-- Embedding of `getChat` (src/server/services/chat.service.ts lines
86-94). -/
def getChat (chatId : String) (f : Faults) (s : DBState) : Except String ChatRec :=
  if f.chatFind then .error "Failed to get chat"
  else
    match s.chats.find? (fun c => c.cid == chatId) with
    | none => .error "Chat not found"
    | some c => .ok c

/-- Embedding of `getChatsByParticipants` (src/server/services/chat.service.ts
lines 99-108): resolve the usernames, then `$all`-filter the chats; any
thrown database error is caught and an empty list returned. -/
def getChatsByParticipants (usernames : List String) (f : Faults) (s : DBState) :
    List ChatRec :=
  match dbUserFindIn f s usernames with
  | .error _ => []
  | .ok users =>
    match dbChatFindAll f s (users.map (fun u => u.uid)) with
    | .error _ => []
    | .ok chats => chats

/-- Fully hydrated message: the stored fields plus the sender identity
record attached by hydration. -/
structure HydratedMessage where
  mid : String
  msg : String
  msgFrom : String
  msgDateTime : Nat
  sender : UserRec
deriving Repr, DecidableEq

/-- Fully hydrated chat: participant and message references expanded. -/
structure HydratedChat where
  cid : String
  participants : List UserRec
  messages : List HydratedMessage
deriving Repr, DecidableEq

/-- Result of `populateDocument`: the hydrated document, or the error-shaped
object it returns on failure. -/
inductive PopResult where
  | doc (c : HydratedChat)
  | errObj (e : String)
deriving Repr, DecidableEq

/-- Whether a populate result is the error-shaped object. -/
def isErrPop : PopResult → Bool
  | .doc _ => false
  | .errObj _ => true

/-- Expansion of each message reference into its full record with the sender
identity attached (the repository hydrates the sender by its stored
username, as its controller tests show); a dangling reference fails. -/
def hydrateMessages (s : DBState) : List String → Except String (List HydratedMessage)
  | [] => .ok []
  | mid :: rest =>
    match s.messages.find? (fun m => m.mid == mid) with
    | none => .error "Failed populating a document"
    | some m =>
      match s.users.find? (fun u => u.username == m.msgFrom) with
      | none => .error "Failed populating a document"
      | some u =>
        match hydrateMessages s rest with
        | .error e => .error e
        | .ok hs => .ok (⟨m.mid, m.msg, m.msgFrom, m.msgDateTime, u⟩ :: hs)

/-- Expansion of each participant reference into its identity record; a
dangling reference fails. -/
def hydrateParticipants (s : DBState) : List String → Except String (List UserRec)
  | [] => .ok []
  | pid :: rest =>
    match s.users.find? (fun u => u.uid == pid) with
    | none => .error "Failed populating a document"
    | some u =>
      match hydrateParticipants s rest with
      | .error e => .error e
      | .ok us => .ok (u :: us)

/-- Modelled from the spec: `populateDocument` lives in
src/server/utils/database.util.ts, which is not among the provided sources;
per spec section 4.5 it loads the chat by identifier, expands every message
reference into its full record with the sender identity expanded, expands
every participant reference into its full identity record, and returns the
hydrated structure or an error-shaped object when any load fails. -/
def populateDocument (chatId : String) (s : DBState) : PopResult :=
  match s.chats.find? (fun c => c.cid == chatId) with
  | none => .errObj "Failed populating a document"
  | some c =>
    match hydrateMessages s c.messages, hydrateParticipants s c.participants with
    | .ok ms, .ok ps => .doc ⟨c.cid, ps, ms⟩
    | _, _ => .errObj "Failed populating a document"

/-- Lenient hydration used by the inline
`ChatModel.findById(..).populate(..)` of `createChatRoute`: mongoose populate
drops dangling references instead of failing. -/
def hydrateLenient (s : DBState) (c : ChatRec) : HydratedChat :=
  { cid := c.cid
    participants := c.participants.filterMap (fun pid => s.users.find? (fun u => u.uid == pid))
    messages := c.messages.filterMap (fun mid =>
      (s.messages.find? (fun m => m.mid == mid)).bind (fun m =>
        (s.users.find? (fun u => u.username == m.msgFrom)).map (fun u =>
          ⟨m.mid, m.msg, m.msgFrom, m.msgDateTime, u⟩))) }

/-- `ChatModel.findById(..).populate(..)` as used inline by
`createChatRoute`; `none` is the `null` mongoose returns for a missing id. -/
def findByIdPopulated (chatId : String) (s : DBState) : Option HydratedChat :=
  (s.chats.find? (fun c => c.cid == chatId)).map (hydrateLenient s)

/-- Payload carried by a `chatUpdate` event: the value serialized into the
`chat` field (a hydrated chat, `null`, or the populate error object). -/
inductive ChatPayload where
  | doc (c : HydratedChat)
  | nullChat
  | errObj (e : String)
deriving Repr, DecidableEq

/-- The `chat` field the controller serializes from a populate result. -/
def popToPayload : PopResult → ChatPayload
  | .doc c => .doc c
  | .errObj e => .errObj e

/-- One realtime emission: `room = none` is `socket.emit`, a broadcast to
every connected client; `room = some r` would be a broadcast scoped to the
subscribers of channel `r`. -/
structure SocketEvent where
  room : Option String
  name : String
  chat : ChatPayload
  eventType : String
deriving Repr, DecidableEq

/-- Per-connection subscription state: the channels this connection joined. -/
structure ClientConn where
  joined : List String
deriving Repr, DecidableEq

/-- Embedding of the `joinChat` connection handler (src/unnamed/part_000
lines 202-206): a non-string chat id (`none`) is silently ignored. -/
def joinChat (c : ClientConn) (chatId : Option String) : ClientConn :=
  match chatId with
  | some cid => { c with joined := c.joined ++ [cid] }
  | none => c

/-- Embedding of the `leaveChat` connection handler (src/unnamed/part_000
lines 208-212): a non-string chat id (`none`) is silently ignored. -/
def leaveChat (c : ClientConn) (chatId : Option String) : ClientConn :=
  match chatId with
  | some cid => { c with joined := c.joined.filter (fun x => x != cid) }
  | none => c

/-- Delivery semantics of the publish/subscribe transport: an un-scoped
emission reaches every connection; a room-scoped emission reaches exactly
the connections subscribed to that room. -/
def receives (c : ClientConn) (e : SocketEvent) : Bool :=
  match e.room with
  | none => true
  | some r => c.joined.contains r

/-- HTTP response body, covering every shape these routes serialize. -/
inductive RespBody where
  | chatJson (c : Option HydratedChat)
  | popJson (p : PopResult)
  | popListJson (l : List PopResult)
  | errJson (e : String)
  | errText (e : String)
deriving Repr, DecidableEq

/-- HTTP status plus body. -/
structure HttpResponse where
  status : Nat
  body : RespBody
deriving Repr, DecidableEq

/-- Outcome of one route invocation: the response, the database state after
the run, and the realtime events emitted during the run. -/
structure RouteResult where
  resp : HttpResponse
  state : DBState
  events : List SocketEvent
deriving Repr, DecidableEq

/-- Embedding of `createChatRoute` (src/unnamed/part_000 lines 71-97). -/
def createChatRoute (b : CreateChatBody) (f : Faults) (s : DBState) : RouteResult :=
  if !isCreateChatRequestValid b then
    ⟨⟨400, .errJson "Invalid chat creation request"⟩, s, []⟩
  else
    match saveChat (decodeCreateChatBody b) f s with
    | (.error e, s1) => ⟨⟨500, .errJson e⟩, s1, []⟩
    | (.ok saved, s1) =>
      if f.popThrow then ⟨⟨500, .errJson "Failed to create chat"⟩, s1, []⟩
      else
        let populated := findByIdPopulated saved.cid s1
        ⟨⟨201, .chatJson populated⟩, s1,
          [⟨none, "chatUpdate",
            (match populated with | some h => .doc h | none => .nullChat), "created"⟩]⟩

/-- Embedding of `addMessageToChatRoute` (src/unnamed/part_000 lines 99-134):
validate, create the message (tagged `direct`, sender as supplied), append
it to the chat, populate, emit one un-scoped `chatUpdate` event of type
`newMessage`, and serve the populate result with status 200; every service
error object is served with status 500. -/
def addMessageToChatRoute (r : AddMessageRequest) (f : Faults) (s : DBState) : RouteResult :=
  if !isAddMessageRequestValid r then
    ⟨⟨400, .errJson "Invalid message request"⟩, s, []⟩
  else
    let payload : MessagePayload :=
      ⟨r.msg, r.msgFrom, resolveDate r.msgDateTime s.now, "direct"⟩
    match createMessage payload f s with
    | (.error _, s1) => ⟨⟨500, .errJson "Message creation failed or ID missing"⟩, s1, []⟩
    | (.ok m, s1) =>
      match addMessageToChat r.chatId m.mid f s1 with
      | (.error e, s2) => ⟨⟨500, .errJson e⟩, s2, []⟩
      | (.ok c, s2) =>
        if f.popThrow then ⟨⟨500, .errJson "Failed to add message to chat"⟩, s2, []⟩
        else
          let populated := populateDocument c.cid s2
          ⟨⟨200, .popJson populated⟩, s2,
            [⟨none, "chatUpdate", popToPayload populated, "newMessage"⟩]⟩

/-- Embedding of `getChatRoute` (src/unnamed/part_000 lines 136-149). -/
def getChatRoute (chatId : String) (f : Faults) (s : DBState) : RouteResult :=
  match getChat chatId f s with
  | .error e => ⟨⟨404, .errJson e⟩, s, []⟩
  | .ok c =>
    if f.popThrow then ⟨⟨500, .errJson "Failed to retrieve chat"⟩, s, []⟩
    else ⟨⟨200, .popJson (populateDocument c.cid s)⟩, s, []⟩

/-- Embedding of `getChatsByUserRoute` (src/unnamed/part_000 lines 151-173):
list the chats containing the user, populate each, serve 500 when any
populate result is error-shaped (or when a populate rejects), otherwise
serve the populated list with status 200. -/
def getChatsByUserRoute (username : String) (f : Faults) (s : DBState) : RouteResult :=
  let chats := getChatsByParticipants [username] f s
  if f.popThrow && !chats.isEmpty then
    ⟨⟨500, .errJson "Failed to retrieve chats"⟩, s, []⟩
  else
    let populatedChats := chats.map (fun c => populateDocument c.cid s)
    if populatedChats.any isErrPop then
      ⟨⟨500, .errText "Error retrieving chat: Failed populating chats"⟩, s, []⟩
    else
      ⟨⟨200, .popListJson populatedChats⟩, s, []⟩

/-- Embedding of `addParticipantToChatRoute` (src/unnamed/part_000 lines
175-199): validate, `$addToSet` the participant, populate, serve 200; no
realtime event on any path. -/
def addParticipantToChatRoute (r : AddParticipantRequest) (f : Faults) (s : DBState) :
    RouteResult :=
  if !isAddParticipantRequestValid r then
    ⟨⟨400, .errJson "Invalid participant"⟩, s, []⟩
  else
    match addParticipantToChat r.chatId r.participant f s with
    | (.error e, s1) => ⟨⟨500, .errJson e⟩, s1, []⟩
    | (.ok c, s1) =>
      if f.popThrow then ⟨⟨500, .errJson "Failed to add participant"⟩, s1, []⟩
      else ⟨⟨200, .popJson (populateDocument c.cid s1)⟩, s1, []⟩

/-! Fixture values used by witnesses and counterexamples. -/

/-- Identity record for the fixture user alice. -/
def userAlice : UserRec := ⟨"u1", "alice"⟩

/-- Identity record for the fixture user bob. -/
def userBob : UserRec := ⟨"u2", "bob"⟩

/-- A 12-character (hence well-formed) chat object id used by fixtures. -/
def chatIdA : String := "cccccccccccc"

/-- Fixture store holding alice and bob and one chat between them. -/
def stPair : DBState := ⟨[userAlice, userBob], [], [⟨chatIdA, ["u1", "u2"], []⟩], 0, 0⟩

/-- Fixture store holding alice and bob and no chats. -/
def stNoChats : DBState := ⟨[userAlice, userBob], [], [], 0, 0⟩

/-! Helper lemmas about the embedded operations. -/

/-- Creating a message never touches the chat collection. -/
theorem createMessage_preserves_chats (m : MessagePayload) (f : Faults) (s : DBState) :
    (createMessage m f s).2.chats = s.chats := by
  unfold createMessage
  split
  · rfl
  · rfl
  · split <;> rfl

/-- An update by id misses when no stored chat carries the id. -/
theorem updateFirst_none (g : ChatRec → ChatRec) (cid : String) :
    ∀ l : List ChatRec, (∀ c ∈ l, c.cid ≠ cid) → updateFirst g cid l = none := by
  intro l
  induction l with
  | nil => intro _; rfl
  | cons c rest ih =>
    intro h
    have hc : (c.cid == cid) = false :=
      beq_eq_false_iff_ne.mpr (h c (List.mem_cons_self c rest))
    unfold updateFirst
    rw [hc]
    simp only [Bool.false_eq_true, if_false]
    rw [ih (fun x hx => h x (List.mem_cons_of_mem c hx))]

/-- Replaying an update whose effect is idempotent and id-preserving leaves
the updated collection fixed and returns the same document. -/
theorem updateFirst_replay (g : ChatRec → ChatRec) (cid : String)
    (hcid : ∀ c, (g c).cid = c.cid) (hgg : ∀ c, g (g c) = g c) :
    ∀ (l : List ChatRec) (u : ChatRec) (lu : List ChatRec),
      updateFirst g cid l = some (u, lu) → updateFirst g cid lu = some (u, lu) := by
  intro l
  induction l with
  | nil =>
    intro u lu h
    simp [updateFirst] at h
  | cons c rest ih =>
    intro u lu h
    unfold updateFirst at h
    by_cases hcc : (c.cid == cid) = true
    · rw [if_pos hcc] at h
      injection h with h
      injection h with hu hlu
      subst hu
      subst hlu
      unfold updateFirst
      have hgc : ((g c).cid == cid) = true := by rw [hcid c]; exact hcc
      rw [if_pos hgc, hgg c]
    · rw [if_neg hcc] at h
      cases hrest : updateFirst g cid rest with
      | none =>
        rw [hrest] at h
        exact absurd h (by simp)
      | some p =>
        obtain ⟨u0, l0⟩ := p
        rw [hrest] at h
        injection h with h
        injection h with hu hlu
        subst hu
        subst hlu
        have ih0 := ih u0 l0 hrest
        unfold updateFirst
        rw [if_neg hcc, ih0]

/-- Claim C9: an add-participant request, whether it succeeds or fails,
emits no realtime event — every branch of `addParticipantToChatRoute`
returns an empty emission list, asymmetric with create-chat and add-message,
which each emit one `chatUpdate` event. -/
theorem addParticipantRoute_emits_no_events
    (r : AddParticipantRequest) (f : Faults) (s : DBState) :
    (addParticipantToChatRoute r f s).events = [] := by
  unfold addParticipantToChatRoute
  split
  · rfl
  · split
    · rfl
    · split
      · rfl
      · rfl

/-- Claim C8: a create-chat request whose participants field is not a list
or has fewer than two entries is rejected with status 400 and the
validation error object, the database state is returned untouched (no
message write, no chat write — and `saveChat`, which performs the identity
lookup, is never reached), and no event is emitted. -/
theorem createChat_too_few_participants_rejected
    (b : CreateChatBody) (f : Faults) (s : DBState)
    (h : b.participants = none ∨ ∃ ps, b.participants = some ps ∧ ps.length < 2) :
    createChatRoute b f s =
      ⟨⟨400, RespBody.errJson "Invalid chat creation request"⟩, s, []⟩ := by
  have hv : isCreateChatRequestValid b = false := by
    unfold isCreateChatRequestValid
    rcases h with h | ⟨ps, hps, hlt⟩
    · rw [h]
    · rw [hps]
      simp only [if_pos hlt]
  unfold createChatRoute
  rw [hv]
  rfl

/-- Witness for `createChat_too_few_participants_rejected` at a concrete
one-participant body over the empty store. -/
theorem createChat_too_few_participants_rejected_witness :
    ((⟨some ["alice"], none⟩ : CreateChatBody).participants = none ∨
      ∃ ps, (⟨some ["alice"], none⟩ : CreateChatBody).participants = some ps ∧
        ps.length < 2) ∧
    createChatRoute ⟨some ["alice"], none⟩ noFaults ⟨[], [], [], 0, 0⟩ =
      ⟨⟨400, RespBody.errJson "Invalid chat creation request"⟩, ⟨[], [], [], 0, 0⟩, []⟩ :=
  ⟨Or.inr ⟨["alice"], rfl, by decide⟩,
   createChat_too_few_participants_rejected _ _ _ (Or.inr ⟨["alice"], rfl, by decide⟩)⟩

/-- Claim C10: when the identity resolution or the chat query inside
`getChatsByParticipants` throws, the service catches the error and returns
an empty list, so the route serves a 200 response with an empty list —
byte-for-byte the same response a participant with no chats gets (second
conjunct: the same store with the chat collection emptied and no faults
produces the identical response). -/
theorem getChatsByUser_store_failure_masked_as_success
    (uname : String) (f : Faults) (s : DBState)
    (h : f.userFind = true ∨ f.chatFind = true) :
    (getChatsByUserRoute uname f s).resp = ⟨200, RespBody.popListJson []⟩ ∧
    (getChatsByUserRoute uname noFaults { s with chats := [] }).resp =
      ⟨200, RespBody.popListJson []⟩ := by
  have h1 : getChatsByParticipants [uname] f s = [] := by
    unfold getChatsByParticipants dbUserFindIn dbChatFindAll
    rcases h with h | h
    · rw [h]
      simp
    · rw [h]
      cases hf : f.userFind <;> simp
  have h2 : getChatsByParticipants [uname] noFaults { s with chats := [] } = [] := by
    unfold getChatsByParticipants dbUserFindIn dbChatFindAll noFaults
    simp
  constructor
  · unfold getChatsByUserRoute
    rw [h1]
    simp
  · unfold getChatsByUserRoute
    rw [h2]
    simp

/-- Witness for `getChatsByUser_store_failure_masked_as_success` with the
user-find primitive throwing over the two-user fixture store. -/
theorem getChatsByUser_store_failure_masked_as_success_witness :
    ((⟨true, false, false, false, false⟩ : Faults).userFind = true ∨
      (⟨true, false, false, false, false⟩ : Faults).chatFind = true) ∧
    ((getChatsByUserRoute "alice" ⟨true, false, false, false, false⟩ stPair).resp =
        ⟨200, RespBody.popListJson []⟩ ∧
      (getChatsByUserRoute "alice" noFaults { stPair with chats := [] }).resp =
        ⟨200, RespBody.popListJson []⟩) :=
  ⟨Or.inl rfl,
   getChatsByUser_store_failure_masked_as_success "alice" _ stPair (Or.inl rfl)⟩

/-- Claim C4: `saveChat` persists every seed message before it resolves the
participants and before it writes the chat, so when the call then fails —
because resolution finds a count mismatch, or because the chat write itself
throws after resolution succeeded — it returns an error object while the
freshly persisted seed-message records stay in the message store and no
chat record is written: no rollback or cleanup on either failure path. -/
theorem saveChat_orphans_seed_messages_on_failure
    (p : CreateChatPayload) (f : Faults) (s : DBState)
    (hms : f.msgSave = false) (huf : f.userFind = false)
    (h : (s.users.filter fun u => p.participants.contains u.username).length ≠
        p.participants.length ∨ f.chatWrite = true) :
    (∃ e, (saveChat p f s).1 = Except.error e) ∧
    (saveChat p f s).2.messages =
      s.messages ++ storeSeeds (p.messages.getD []) s.nextId s.now ∧
    (saveChat p f s).2.chats = s.chats := by
  have hok : dbUserFindIn f (saveChatMid p s) p.participants =
      Except.ok (s.users.filter fun u => p.participants.contains u.username) := by
    unfold dbUserFindIn
    rw [huf]
    rfl
  unfold saveChat
  rw [hms]
  simp only [Bool.false_and, Bool.false_eq_true, if_false]
  rw [hok]
  dsimp only
  cases hb : ((s.users.filter fun u => p.participants.contains u.username).length !=
      p.participants.length) with
  | true =>
    exact ⟨⟨"Some users not found", rfl⟩, rfl, rfl⟩
  | false =>
    have hcw : f.chatWrite = true := by
      rcases h with hmis | hcw
      · have hbt := bne_iff_ne.mpr hmis
        rw [hb] at hbt
        exact absurd hbt (by simp)
      · exact hcw
    rw [hcw]
    exact ⟨⟨"Failed to save chat", rfl⟩, rfl, rfl⟩

/-- Fixture store holding only alice, so that bob is unresolvable. -/
def stOnlyAlice : DBState := ⟨[userAlice], [], [], 0, 0⟩

/-- Create-chat payload naming alice and bob, with one seed message. -/
def payC4 : CreateChatPayload := ⟨["alice", "bob"], some [⟨"hi", "alice", none⟩]⟩

/-- Fault set where only the chat write (`ChatModel.create`) throws. -/
def chatWriteFault : Faults := ⟨false, false, false, true, false⟩

/-- Witness for `saveChat_orphans_seed_messages_on_failure`, applied on both
failure paths: over the alice-only store the second participant does not
resolve, and over the two-user store resolution succeeds but the chat write
throws; in both concrete runs the seed message stays persisted. -/
theorem saveChat_orphans_seed_messages_on_failure_witness :
    (((stOnlyAlice.users.filter fun u => payC4.participants.contains u.username).length ≠
        payC4.participants.length ∨ noFaults.chatWrite = true) ∧
      ((∃ e, (saveChat payC4 noFaults stOnlyAlice).1 = Except.error e) ∧
        (saveChat payC4 noFaults stOnlyAlice).2.messages =
          stOnlyAlice.messages ++
            storeSeeds (payC4.messages.getD []) stOnlyAlice.nextId stOnlyAlice.now ∧
        (saveChat payC4 noFaults stOnlyAlice).2.chats = stOnlyAlice.chats)) ∧
    (((stPair.users.filter fun u => payC4.participants.contains u.username).length ≠
        payC4.participants.length ∨ chatWriteFault.chatWrite = true) ∧
      ((∃ e, (saveChat payC4 chatWriteFault stPair).1 = Except.error e) ∧
        (saveChat payC4 chatWriteFault stPair).2.messages =
          stPair.messages ++ storeSeeds (payC4.messages.getD []) stPair.nextId stPair.now ∧
        (saveChat payC4 chatWriteFault stPair).2.chats = stPair.chats)) :=
  ⟨⟨Or.inl (by decide),
    saveChat_orphans_seed_messages_on_failure payC4 noFaults stOnlyAlice rfl rfl
      (Or.inl (by decide))⟩,
   ⟨Or.inr rfl,
    saveChat_orphans_seed_messages_on_failure payC4 chatWriteFault stPair rfl rfl
      (Or.inr rfl)⟩⟩

/-- Claim C6: when the queried username resolves to exactly one identity,
`getChatsByParticipants` returns exactly the stored chats whose participant
set contains the resolved identifier — every returned chat contains it, and
no stored chat containing it is omitted. -/
theorem getChatsByParticipants_exact_membership
    (f : Faults) (s : DBState) (uname uid : String)
    (huf : f.userFind = false) (hcf : f.chatFind = false)
    (hres : s.users.filter (fun u => [uname].contains u.username) = [⟨uid, uname⟩]) :
    ∀ c : ChatRec, c ∈ getChatsByParticipants [uname] f s ↔
      (c ∈ s.chats ∧ uid ∈ c.participants) := by
  intro c
  unfold getChatsByParticipants dbUserFindIn dbChatFindAll
  rw [huf, hcf, hres]
  simp [List.mem_filter]

/-- Witness for `getChatsByParticipants_exact_membership`: alice resolves to
`u1`, and the fixture chat containing `u1` is reported as a member of the
result exactly because it contains `u1`. -/
theorem getChatsByParticipants_exact_membership_witness :
    (noFaults.userFind = false ∧ noFaults.chatFind = false ∧
      stPair.users.filter (fun u => ["alice"].contains u.username) = [⟨"u1", "alice"⟩]) ∧
    ((⟨chatIdA, ["u1", "u2"], []⟩ : ChatRec) ∈
        getChatsByParticipants ["alice"] noFaults stPair ↔
      ((⟨chatIdA, ["u1", "u2"], []⟩ : ChatRec) ∈ stPair.chats ∧
        "u1" ∈ (⟨chatIdA, ["u1", "u2"], []⟩ : ChatRec).participants)) :=
  ⟨⟨rfl, rfl, by decide⟩,
   getChatsByParticipants_exact_membership noFaults stPair "alice" "u1" rfl rfl (by decide)
     ⟨chatIdA, ["u1", "u2"], []⟩⟩

/-- The `$addToSet` update never changes the chat id. -/
theorem addToSetParticipant_cid (userId : String) (c : ChatRec) :
    (addToSetParticipant userId c).cid = c.cid := by
  unfold addToSetParticipant
  split <;> rfl

/-- The `$addToSet` update is the identity when the participant is already a
member. -/
theorem addToSetParticipant_of_contains (userId : String) (c : ChatRec)
    (h : c.participants.contains userId = true) :
    addToSetParticipant userId c = c := by
  unfold addToSetParticipant
  rw [if_pos h]

/-- The `$addToSet` update is idempotent on a chat document. -/
theorem addToSetParticipant_idem (userId : String) (c : ChatRec) :
    addToSetParticipant userId (addToSetParticipant userId c) =
      addToSetParticipant userId c := by
  by_cases h : c.participants.contains userId = true
  · rw [addToSetParticipant_of_contains userId c h]
    exact addToSetParticipant_of_contains userId c h
  · have h1 : addToSetParticipant userId c =
        { c with participants := c.participants ++ [userId] } := by
      unfold addToSetParticipant
      rw [if_neg h]
    rw [h1]
    apply addToSetParticipant_of_contains
    show ((c.participants ++ [userId]).contains userId) = true
    simp

/-- Claim C7: add-participant is idempotent — when a first
`addParticipantToChat` call succeeds, repeating it with the same chat and
participant identifiers returns the very same chat document and leaves the
store unchanged, so in particular the participant set keeps the same size
after the second call. -/
theorem addParticipantToChat_idempotent
    (chatId userId : String) (f : Faults) (s : DBState)
    (hfw : f.chatWrite = false)
    (c1 : ChatRec) (s1 : DBState)
    (h1 : addParticipantToChat chatId userId f s = (Except.ok c1, s1)) :
    addParticipantToChat chatId userId f s1 = (Except.ok c1, s1) := by
  unfold addParticipantToChat at h1 ⊢
  rw [hfw] at h1 ⊢
  simp only [Bool.false_eq_true, if_false] at h1 ⊢
  cases hu : updateFirst (addToSetParticipant userId) chatId s.chats with
  | none =>
    rw [hu] at h1
    exact absurd h1 (by simp)
  | some p =>
    obtain ⟨u, lu⟩ := p
    rw [hu] at h1
    injection h1 with hc hs
    injection hc with hc
    subst hc
    subst hs
    have hre := updateFirst_replay (addToSetParticipant userId) chatId
      (addToSetParticipant_cid userId) (addToSetParticipant_idem userId)
      s.chats u lu hu
    dsimp only
    rw [hre]

/-- Witness for `addParticipantToChat_idempotent`: adding bob to the
alice-only fixture chat succeeds, and replaying the call returns the same
chat and store. -/
theorem addParticipantToChat_idempotent_witness :
    (noFaults.chatWrite = false ∧
      addParticipantToChat chatIdA "u2" noFaults
          ⟨[userAlice, userBob], [], [⟨chatIdA, ["u1"], []⟩], 0, 0⟩ =
        (Except.ok ⟨chatIdA, ["u1", "u2"], []⟩,
          ⟨[userAlice, userBob], [], [⟨chatIdA, ["u1", "u2"], []⟩], 0, 0⟩)) ∧
    addParticipantToChat chatIdA "u2" noFaults
        ⟨[userAlice, userBob], [], [⟨chatIdA, ["u1", "u2"], []⟩], 0, 0⟩ =
      (Except.ok ⟨chatIdA, ["u1", "u2"], []⟩,
        ⟨[userAlice, userBob], [], [⟨chatIdA, ["u1", "u2"], []⟩], 0, 0⟩) :=
  ⟨⟨rfl, by decide⟩,
   addParticipantToChat_idempotent chatIdA "u2" noFaults
     ⟨[userAlice, userBob], [], [⟨chatIdA, ["u1"], []⟩], 0, 0⟩ rfl
     ⟨chatIdA, ["u1", "u2"], []⟩
     ⟨[userAlice, userBob], [], [⟨chatIdA, ["u1", "u2"], []⟩], 0, 0⟩ (by decide)⟩

/-- Mapping then testing a list is testing the composed function. -/
theorem any_map_comp {α β : Type} (l : List α) (g : α → β) (p : β → Bool) :
    (l.map g).any p = l.any (fun a => p (g a)) := by
  induction l with
  | nil => rfl
  | cons x xs ih => simp [List.map, List.any, ih]

/-- Claim C5: when at least one chat in the matching result set hydrates to
the error-shaped populate object, `getChatsByUserRoute` serves status 500
with the fixed error text — the populated list is discarded wholesale, so no
incomplete list of hydrated chats is ever returned. -/
theorem getChatsByUser_all_or_nothing
    (uname : String) (f : Faults) (s : DBState)
    (hp : f.popThrow = false)
    (hfail : (getChatsByParticipants [uname] f s).any
        (fun c => isErrPop (populateDocument c.cid s)) = true) :
    (getChatsByUserRoute uname f s).resp =
      ⟨500, RespBody.errText "Error retrieving chat: Failed populating chats"⟩ := by
  unfold getChatsByUserRoute
  rw [hp]
  have hmap : ((getChatsByParticipants [uname] f s).map
      (fun c => populateDocument c.cid s)).any isErrPop = true := by
    rw [any_map_comp]
    exact hfail
  simp only [Bool.false_and, Bool.false_eq_true, if_false]
  rw [hmap]
  rfl

/-- Fixture store whose only chat holds a dangling message reference, so
hydrating it fails. -/
def stDangling : DBState :=
  ⟨[⟨"u9", "dave"⟩], [], [⟨"dddddddddddd", ["u9"], ["missing"]⟩], 0, 0⟩

/-- Witness for `getChatsByUser_all_or_nothing` over the dangling-reference
fixture. -/
theorem getChatsByUser_all_or_nothing_witness :
    (noFaults.popThrow = false ∧
      (getChatsByParticipants ["dave"] noFaults stDangling).any
        (fun c => isErrPop (populateDocument c.cid stDangling)) = true) ∧
    (getChatsByUserRoute "dave" noFaults stDangling).resp =
      ⟨500, RespBody.errText "Error retrieving chat: Failed populating chats"⟩ :=
  ⟨⟨rfl, by decide⟩,
   getChatsByUser_all_or_nothing "dave" noFaults stDangling rfl (by decide)⟩

/-- A successful `dbUserFindIn` read returns exactly the username filter of
the store. -/
theorem dbUserFindIn_ok (f : Faults) (s : DBState) (names : List String)
    (users : List UserRec) (h : dbUserFindIn f s names = Except.ok users) :
    users = s.users.filter (fun u => names.contains u.username) := by
  unfold dbUserFindIn at h
  split at h
  · exact absurd h (by simp)
  · injection h with h
    exact h.symm

/-- A successful `createMessage` stores the sender field exactly as supplied
in the payload. -/
theorem createMessage_ok_msgFrom (m : MessagePayload) (f : Faults) (s : DBState)
    (md : MessageRec) (s2 : DBState)
    (h : createMessage m f s = (Except.ok md, s2)) :
    md.msgFrom = m.msgFrom := by
  unfold createMessage at h
  split at h
  · exact absurd h (by simp)
  · exact absurd h (by simp)
  · split at h
    · exact absurd h (by simp)
    · injection h with h1 h2
      injection h1 with h1
      rw [← h1]

/-- Claim C1 (counterexample): a validated add-message request against a
chat identifier absent from the store is served with status 500 (carrying
the `Chat not found` error object), not with status 404, even though the
sender resolves. -/
theorem addMessage_missing_chat_counterexample :
    isAddMessageRequestValid ⟨"dddddddddddd", "hi", "alice", none⟩ = true ∧
    (stPair.chats.map fun c => c.cid) = [chatIdA] ∧
    chatIdA ≠ "dddddddddddd" ∧
    (stPair.users.map fun u => u.username) = ["alice", "bob"] ∧
    (addMessageToChatRoute ⟨"dddddddddddd", "hi", "alice", none⟩ noFaults stPair).resp.status
      = 500 ∧
    (addMessageToChatRoute ⟨"dddddddddddd", "hi", "alice", none⟩ noFaults stPair).resp.status
      ≠ 404 ∧
    (addMessageToChatRoute ⟨"dddddddddddd", "hi", "alice", none⟩ noFaults stPair).resp.body
      = RespBody.errJson "Chat not found" := by decide

/-- Claim C1 (amended): a validated add-message request whose target chat
identifier is absent from the chat store always fails, and the HTTP boundary
reports status 500 — regardless of whether the sender resolves (the service
yields the `Chat not found` error object when it does, and message creation
fails first when it does not; both are mapped to 500). -/
theorem addMessage_missing_chat_reports_500
    (r : AddMessageRequest) (f : Faults) (s : DBState)
    (hv : isAddMessageRequestValid r = true)
    (habs : ∀ c ∈ s.chats, c.cid ≠ r.chatId) :
    (addMessageToChatRoute r f s).resp.status = 500 := by
  unfold addMessageToChatRoute
  rw [hv]
  simp only [Bool.not_true, Bool.false_eq_true, if_false]
  rcases hcm : createMessage ⟨r.msg, r.msgFrom, resolveDate r.msgDateTime s.now, "direct"⟩ f s
    with ⟨res, s1⟩
  cases res with
  | error e => rfl
  | ok m =>
    have hch : s1.chats = s.chats := by
      have h0 := createMessage_preserves_chats
        ⟨r.msg, r.msgFrom, resolveDate r.msgDateTime s.now, "direct"⟩ f s
      rw [hcm] at h0
      exact h0
    unfold addMessageToChat
    cases hfw : f.chatWrite with
    | true => rfl
    | false =>
      have hnone : updateFirst (pushMessage m.mid) r.chatId s1.chats = none := by
        apply updateFirst_none
        intro c hc
        exact habs c (hch ▸ hc)
      dsimp only
      rw [hnone]
      rfl

/-- Witness for `addMessage_missing_chat_reports_500` at a valid request
over the chat-free fixture store. -/
theorem addMessage_missing_chat_reports_500_witness :
    isAddMessageRequestValid ⟨chatIdA, "hi", "alice", none⟩ = true ∧
    (∀ c ∈ stNoChats.chats, c.cid ≠ chatIdA) ∧
    (addMessageToChatRoute ⟨chatIdA, "hi", "alice", none⟩ noFaults stNoChats).resp.status
      = 500 :=
  ⟨by decide, by simp [stNoChats],
   addMessage_missing_chat_reports_500 ⟨chatIdA, "hi", "alice", none⟩ noFaults stNoChats
     (by decide) (by simp [stNoChats])⟩

/-- Fixture message payload sent by alice. -/
def payAlice : MessagePayload := ⟨"hi", "alice", 5, "direct"⟩

/-- Claim C2 (counterexample): a successful `createMessage` stores the
sender field as the literal username `alice`, which is not among the
internal identifiers of the user store — the stored Message record holds a
username, not a resolved identifier. -/
theorem message_sender_stored_as_username_counterexample :
    (createMessage payAlice noFaults stOnlyAlice).1 =
      Except.ok ⟨"oid0", "hi", "alice", 5, "direct"⟩ ∧
    ((createMessage payAlice noFaults stOnlyAlice).2.messages.map fun m => m.msgFrom) =
      ["alice"] ∧
    (stOnlyAlice.users.map fun u => u.username) = ["alice"] ∧
    (stOnlyAlice.users.map fun u => u.uid) = ["u1"] ∧
    ((stOnlyAlice.users.map fun u => u.uid).contains "alice") = false := by decide

/-- Claim C2 (amended): chat records persist resolved identifiers — every
participant reference a successful `saveChat` stores is the internal id of
a user present in the store — but message records persist the sender as the
supplied username: a successful `createMessage` stores `msgFrom` exactly as
given in the payload (the username, existence-checked but never substituted
by the resolved id). -/
theorem chat_participants_resolved_message_sender_username
    (p : CreateChatPayload) (m : MessagePayload) (f : Faults) (s : DBState)
    (c : ChatRec) (s1 : DBState) (md : MessageRec) (s2 : DBState)
    (hc : saveChat p f s = (Except.ok c, s1))
    (hm : createMessage m f s = (Except.ok md, s2)) :
    (∀ pid ∈ c.participants, ∃ u ∈ s.users, u.uid = pid) ∧ md.msgFrom = m.msgFrom := by
  refine ⟨?_, createMessage_ok_msgFrom m f s md s2 hm⟩
  unfold saveChat at hc
  split at hc
  · exact absurd hc (by simp)
  · rcases hfd : dbUserFindIn f (saveChatMid p s) p.participants with _ | users
    · rw [hfd] at hc
      exact absurd hc (by simp)
    · rw [hfd] at hc
      dsimp only at hc
      split at hc
      · exact absurd hc (by simp)
      · split at hc
        · exact absurd hc (by simp)
        · injection hc with hc1 hc2
          injection hc1 with hc1
          have husers := dbUserFindIn_ok f (saveChatMid p s) p.participants users hfd
          intro pid hpid
          rw [← hc1] at hpid
          unfold saveChatNew at hpid
          dsimp only at hpid
          rw [husers] at hpid
          obtain ⟨u, hu, hup⟩ := List.mem_map.mp hpid
          exact ⟨u, (List.mem_filter.mp hu).1, hup⟩

/-- Witness for `chat_participants_resolved_message_sender_username`: both a
chat creation and a message creation succeed over the two-user fixture, the
chat storing resolved ids and the message storing the username. -/
theorem chat_participants_resolved_message_sender_username_witness :
    saveChat ⟨["alice", "bob"], none⟩ noFaults stPair =
      (Except.ok ⟨"oid0", ["u1", "u2"], []⟩,
        ⟨[userAlice, userBob], [], [⟨chatIdA, ["u1", "u2"], []⟩, ⟨"oid0", ["u1", "u2"], []⟩],
          1, 0⟩) ∧
    createMessage payAlice noFaults stPair =
      (Except.ok ⟨"oid0", "hi", "alice", 5, "direct"⟩,
        ⟨[userAlice, userBob], [⟨"oid0", "hi", "alice", 5, "direct"⟩],
          [⟨chatIdA, ["u1", "u2"], []⟩], 1, 0⟩) ∧
    ((∀ pid ∈ (⟨"oid0", ["u1", "u2"], []⟩ : ChatRec).participants,
        ∃ u ∈ stPair.users, u.uid = pid) ∧
      (⟨"oid0", "hi", "alice", 5, "direct"⟩ : MessageRec).msgFrom = payAlice.msgFrom) :=
  ⟨by decide, by decide,
   chat_participants_resolved_message_sender_username
     ⟨["alice", "bob"], none⟩ payAlice noFaults stPair
     ⟨"oid0", ["u1", "u2"], []⟩
     ⟨[userAlice, userBob], [], [⟨chatIdA, ["u1", "u2"], []⟩, ⟨"oid0", ["u1", "u2"], []⟩], 1, 0⟩
     ⟨"oid0", "hi", "alice", 5, "direct"⟩
     ⟨[userAlice, userBob], [⟨"oid0", "hi", "alice", 5, "direct"⟩],
       [⟨chatIdA, ["u1", "u2"], []⟩], 1, 0⟩
     (by decide) (by decide)⟩

/-- Add-message request targeting the fixture chat, sent by alice. -/
def reqHi : AddMessageRequest := ⟨chatIdA, "hi", "alice", none⟩

/-- Claim C3 (counterexample): a successful add-message run emits its
`newMessage` event un-scoped (`socket.emit`, room `none`), so a connection
subscribed to no channel at all still receives it — delivery is not limited
to subscribers of the target chat's channel. -/
theorem addMessage_event_not_scoped_counterexample :
    (addMessageToChatRoute reqHi noFaults stPair).resp.status = 200 ∧
    ((addMessageToChatRoute reqHi noFaults stPair).events.map fun e => e.room) = [none] ∧
    ((addMessageToChatRoute reqHi noFaults stPair).events.map fun e => e.eventType) =
      ["newMessage"] ∧
    ((addMessageToChatRoute reqHi noFaults stPair).events.all fun e =>
      receives ⟨[]⟩ e) = true := by decide

/-- Claim C3 (amended): every add-message request that succeeds (status 200)
emits exactly one `chatUpdate` event of type `newMessage`, broadcast
globally to all connected clients rather than scoped to the chat's channel
(every connection receives it, subscribed or not), and its payload is the
very populate result served back to the caller. -/
theorem addMessage_success_emits_one_global_event
    (r : AddMessageRequest) (f : Faults) (s : DBState)
    (h : (addMessageToChatRoute r f s).resp.status = 200) :
    ∃ p : PopResult,
      (addMessageToChatRoute r f s).events =
        [⟨none, "chatUpdate", popToPayload p, "newMessage"⟩] ∧
      (addMessageToChatRoute r f s).resp.body = RespBody.popJson p ∧
      ∀ conn : ClientConn,
        receives conn ⟨none, "chatUpdate", popToPayload p, "newMessage"⟩ = true := by
  unfold addMessageToChatRoute at h ⊢
  by_cases hv : isAddMessageRequestValid r = true
  · rw [hv] at h ⊢
    simp only [Bool.not_true, Bool.false_eq_true, if_false] at h ⊢
    set cm := createMessage ⟨r.msg, r.msgFrom, resolveDate r.msgDateTime s.now, "direct"⟩ f s
      with hcm
    obtain ⟨res, s1⟩ := cm
    cases res with
    | error e => simp at h
    | ok m =>
      dsimp only at h ⊢
      set am := addMessageToChat r.chatId m.mid f s1 with ham
      obtain ⟨res2, s2⟩ := am
      cases res2 with
      | error e => simp at h
      | ok c =>
        dsimp only at h ⊢
        by_cases hp : f.popThrow = true
        · rw [hp] at h
          simp at h
        · have hp2 : f.popThrow = false := by
            cases hb : f.popThrow
            · rfl
            · exact absurd hb hp
          rw [hp2] at h ⊢
          simp only [Bool.false_eq_true, if_false] at h ⊢
          exact ⟨populateDocument c.cid s2, rfl, rfl, fun conn => rfl⟩
  · have hv2 : isAddMessageRequestValid r = false := by
      cases hb : isAddMessageRequestValid r
      · rfl
      · exact absurd hb hv
    rw [hv2] at h
    simp at h

/-- Witness for `addMessage_success_emits_one_global_event` at the
successful fixture run. -/
theorem addMessage_success_emits_one_global_event_witness :
    (addMessageToChatRoute reqHi noFaults stPair).resp.status = 200 ∧
    (∃ p : PopResult,
      (addMessageToChatRoute reqHi noFaults stPair).events =
        [⟨none, "chatUpdate", popToPayload p, "newMessage"⟩] ∧
      (addMessageToChatRoute reqHi noFaults stPair).resp.body = RespBody.popJson p ∧
      ∀ conn : ClientConn,
        receives conn ⟨none, "chatUpdate", popToPayload p, "newMessage"⟩ = true) :=
  ⟨by decide,
   addMessage_success_emits_one_global_event reqHi noFaults stPair (by decide)⟩

end ChatCore
